import Mathlib

/-!
Verification model of the `central_repository` deployment-configuration
utility: the React UI (`src/scxml-ui/src/App.js`) and the workflow
generation script (`src/generate_workflow.sh`).

The manifest JSON document is modelled structurally: each of its top-level
mappings is an association list from string keys to string sequences, in
document order, with the keys of a parsed JSON object taken as distinct.
jq and JavaScript field accesses, jq's `contains`, the `// ""` alternative
operator, and `jq -r` rendering of `null` are modelled by the semantics
documented in the jq manual.  LOB keys are assumed identifier-shaped, so
that the script's interpolation `.SCXML_TARGET_APP_LISTS.${LOB_KEY}` is a
plain field access.
-/

/-- Character-list version of "p occurs at the start of s". -/
def chPre : List Char → List Char → Bool
  | [], _ => true
  | _ :: _, [] => false
  | a :: as, b :: bs => a = b && chPre as bs

/-- Character-list version of "t occurs somewhere inside s" (substring). -/
def chSub (t : List Char) : List Char → Bool
  | [] => chPre t []
  | b :: bs => chPre t (b :: bs) || chSub t bs

/-- jq string containment: `A contains B` for strings holds iff `B` is a
substring of `A` (jq manual, `contains`). -/
def jqStrContains (a b : String) : Bool :=
  chSub b.data a.data

/-- jq array containment against a one-element array of strings:
`l | contains([t])` holds iff some element of `l` contains `t` as a
substring.  This is the check `generate_workflow.sh` line 90 performs. -/
def jqContainsOne (l : List String) (t : String) : Bool :=
  l.any fun e => jqStrContains e t

/-- One top-level JSON object of the manifest: keys to string arrays,
in document order. -/
abbrev JObj := List (String × List String)

/-- JavaScript / jq field access on an object: `o[k]` / `.o.k`; `none`
models JavaScript `undefined` / jq `null` for an absent key. -/
def objGet (o : JObj) (k : String) : Option (List String) :=
  (o.find? fun p => p.1 = k).map Prod.snd

/-- The manifest document (spec section 3; fields named as in the JSON:
`SCXML_APP_LISTS`, `SCXML_TARGET_APP_LISTS`, `SCXML_EMAIL_CONFIG`,
`SCXML_GIT_CONFIG`, `SCXML_JFROG_CONFIG`). -/
structure Manifest where
  appLists : JObj
  targetAppLists : JObj
  emailConfig : JObj
  gitConfig : JObj
  jfrogConfig : JObj

/-- `jq -r ".F.K[0]"`: field access, index 0, raw output.  Indexing an
absent field gives jq `null`, and `jq -r` prints `null` as the literal
four-character string `null` (only strings are unquoted by `-r`).  This is
how `generate_workflow.sh` line 93 computes `LOB_NAME`. -/
def jqFirstRaw (o : JObj) (k : String) : String :=
  match objGet o k with
  | some (v :: _) => v
  | some [] => "null"
  | none => "null"

/-- `jq -r ".F.K[0] // \"\""`: as above but with the jq alternative
operator, which replaces a `null` (or `false`) left side by `""`.  This is
the form used for every auxiliary field in the Extract Additional
Configuration step (lines 125-133). -/
def jqFirstAlt (o : JObj) (k : String) : String :=
  match objGet o k with
  | some (v :: _) => v
  | _ => ""

/-- Outcome of the `Validate LOB and Target App Combination` step of the
generated workflow (`generate_workflow.sh` lines 80-115), which runs under
`bash -e` (the default shell of a GitHub Actions `run:` block). -/
inductive ValidateOutcome where
  | ok (lobName : String)
  | invalidPair (alternatives : List String)
  | abort
deriving DecidableEq, Repr

/-- The validate step.  `IS_VALID=$(jq -r ".SCXML_TARGET_APP_LISTS.${LOB_KEY}
| contains([\"${TARGET_APP}\"])")`: when the LOB key is absent the field
access yields `null`, `null | contains(...)` is a jq runtime error, the
command substitution fails and `bash -e` aborts the step (`abort`).  When
present, `contains` decides substring containment; on `true` the step
resolves `LOB_NAME` via `jqFirstRaw` and succeeds; otherwise it lists the
LOB's configured apps (`.SCXML_TARGET_APP_LISTS.${LOB_KEY}[]`) and exits 1. -/
def validateStep (m : Manifest) (lobKey targetApp : String) : ValidateOutcome :=
  match objGet m.targetAppLists lobKey with
  | none => ValidateOutcome.abort
  | some l =>
    if jqContainsOne l targetApp then
      ValidateOutcome.ok (jqFirstRaw m.appLists lobKey)
    else
      ValidateOutcome.invalidPair l

/-- Exit status of the validate step: 0 on `ok`, the script's explicit
`exit 1` on `invalidPair`, and jq's runtime-error status 5 on `abort`. -/
def validateExit : ValidateOutcome → Nat
  | ValidateOutcome.ok _ => 0
  | ValidateOutcome.invalidPair _ => 1
  | ValidateOutcome.abort => 5

/-- Whether the validate step succeeded. -/
def isOkOutcome : ValidateOutcome → Bool
  | ValidateOutcome.ok _ => true
  | _ => false

/-- Result of the `Extract Additional Configuration` step
(`generate_workflow.sh` lines 117-139). -/
structure ExtraConfig where
  emailDL : String
  gitRepo : String
  gitUser : String
  artifactoryUser : String
  artifactoryUrl : String
deriving DecidableEq, Repr

/-- The Extract Additional Configuration step: each field is
`first element of named sequence // ""`. -/
def extractConfig (m : Manifest) (lobKey : String) : ExtraConfig :=
  { emailDL := jqFirstAlt m.emailConfig (lobKey ++ "_teamEmailDL")
    gitRepo := jqFirstAlt m.gitConfig "GIT_Repo"
    gitUser := jqFirstAlt m.gitConfig "GIT_userName"
    artifactoryUser := jqFirstAlt m.jfrogConfig "SCXML_artifactoryUserID"
    artifactoryUrl := jqFirstAlt m.jfrogConfig "SCXML_searchArtifactoryBaseURL" }

/-- Exact (case-sensitive, whole-string) membership of a target app in a
LOB's configured list — the spec's membership notion, for comparison with
the code's `jqContainsOne`. -/
def exactMember (l : List String) (t : String) : Bool :=
  l.any fun e => e = t

/-- Codepoint order on characters, as `Nat`. -/
def chLe (a b : Char) : Bool :=
  a.toNat ≤ b.toNat

/-- Lexicographic codepoint order on strings (the `LC_ALL=C` line order
used by `sort`, and jq's key order). -/
def strLeB : List Char → List Char → Bool
  | [], _ => true
  | _ :: _, [] => false
  | a :: as, b :: bs =>
    if a = b then strLeB as bs else chLe a b

/-- Insert a string into a sorted list (insertion step of sorting). -/
def insertStr (x : String) : List String → List String
  | [] => [x]
  | y :: ys => if strLeB x.data y.data then x :: y :: ys else y :: insertStr x ys

/-- Sort a list of strings in codepoint order (models `sort`). -/
def strSort : List String → List String
  | [] => []
  | x :: xs => insertStr x (strSort xs)

/-- `sort -u`: sorted output with duplicate lines removed. -/
def sortUniq (l : List String) : List String :=
  (strSort l).dedup

/-- jq `keys`: the keys of an object, sorted. -/
def jqKeys (o : JObj) : List String :=
  strSort (o.map Prod.fst)

/-- LOB dropdown options emitted by the workflow-generation CLI
(`generate_workflow.sh` lines 47-49): `jq -r '.SCXML_APP_LISTS | keys[]'`. -/
def cliLobOptions (m : Manifest) : List String :=
  jqKeys m.appLists

/-- target_app dropdown options emitted by the CLI (lines 62-64):
`jq -r '.SCXML_TARGET_APP_LISTS | to_entries[] | .value[]' | sort -u`. -/
def cliTargetAppOptions (m : Manifest) : List String :=
  sortUniq (m.targetAppLists.map Prod.snd).flatten

/-- LOB keys exposed by the UI loader (`App.js` line 30):
`Object.keys(res.data.SCXML_TARGET_APP_LISTS)`, in document order. -/
def uiLobKeys (m : Manifest) : List String :=
  m.targetAppLists.map Prod.fst

/-- The dispatch request POSTed by the UI (`App.js` lines 56-74): a `ref`
plus an `inputs` object, modelled as its named fields in source order.  The
JavaScript shorthand `{ lob, ... }` produces the field name `lob`. -/
structure DispatchRequest where
  ref : String
  inputs : List (String × String)
deriving DecidableEq, Repr

/-- React component state of `App` (`App.js` lines 5-16).  `targetApps` is
`some l` when the state holds an array and `none` when it holds JavaScript
`undefined` (the result of indexing with an absent key); it starts as
`some []` (`useState([])`). -/
structure UIState where
  jsonData : Option Manifest
  lobList : List String
  targetApps : Option (List String)
  lob : String
  targetApp : String
  projectName : String
  releaseType : String
  releaseDescription : String
  loading : Bool

/-- Initial component state. -/
def initState : UIState :=
  { jsonData := none, lobList := [], targetApps := some [], lob := ""
    targetApp := "", projectName := "", releaseType := ""
    releaseDescription := "", loading := false }

/-- User-visible events of one UI session. -/
inductive UIEvent where
  | loadSuccess (m : Manifest)
  | selectLob (k : String)
  | selectTargetApp (a : String)
  | setProjectName (v : String)
  | setReleaseType (v : String)
  | setReleaseDescription (v : String)
  | clickTrigger

/-- The LOB-change effect (`App.js` lines 39-45), run after `lob` or
`jsonData` changes: it returns early when the manifest is not loaded or
`lob` is the empty string; otherwise it stores
`jsonData.SCXML_TARGET_APP_LISTS[lob]` (possibly `undefined`) in
`targetApps` and resets `targetApp` to `""`. -/
def lobEffect (s : UIState) : UIState :=
  match s.jsonData with
  | none => s
  | some m =>
    if s.lob = "" then s
    else { s with targetApps := objGet m.targetAppLists s.lob, targetApp := "" }

/-- The dispatch payload built by `triggerWorkflow` (`App.js` lines 56-67):
`ref` is the constant `"main"` and the inputs object carries the component
state fields, the first under the shorthand name `lob`. -/
def buildDispatch (s : UIState) : DispatchRequest :=
  { ref := "main"
    inputs := [("lob", s.lob), ("target_app", s.targetApp),
      ("project_name", s.projectName), ("release_type", s.releaseType),
      ("release_description", s.releaseDescription)] }

/-- One step of the UI: the state after the event (including the re-run of
the LOB-change effect) and the list of dispatch requests POSTed during the
step.  `clickTrigger` is only possible when the form is rendered
(`jsonData` loaded) and the button is enabled (`disabled={loading}`);
`triggerWorkflow` then POSTs unconditionally — it consults neither the
manifest nor any emptiness check — and ends with `loading` back at
`false`. -/
def stepUI (s : UIState) : UIEvent → UIState × List DispatchRequest
  | UIEvent.loadSuccess m =>
    (lobEffect { s with jsonData := some m
                        lobList := m.targetAppLists.map Prod.fst }, [])
  | UIEvent.selectLob k => (lobEffect { s with lob := k }, [])
  | UIEvent.selectTargetApp a => ({ s with targetApp := a }, [])
  | UIEvent.setProjectName v => ({ s with projectName := v }, [])
  | UIEvent.setReleaseType v => ({ s with releaseType := v }, [])
  | UIEvent.setReleaseDescription v => ({ s with releaseDescription := v }, [])
  | UIEvent.clickTrigger =>
    if s.jsonData.isNone then (s, [])
    else if s.loading then (s, [])
    else (s, [buildDispatch s])

/-- Run a sequence of events from a state, collecting every dispatch
request POSTed along the way. -/
def runUI (s : UIState) : List UIEvent → UIState × List DispatchRequest
  | [] => (s, [])
  | e :: es =>
    let (s1, d1) := stepUI s e
    let (s2, d2) := runUI s1 es
    (s2, d1 ++ d2)

/-- Whether rendering the target-app dropdown succeeds: `targetApps.map`
(`App.js` line 117) throws a TypeError when `targetApps` is `undefined`. -/
def renderOk (s : UIState) : Bool :=
  s.targetApps.isSome

/-- The manifest of spec section 8, Scenario A-C. -/
def demoManifest : Manifest :=
  { appLists := [("CL1", ["Consumer Lending"])]
    targetAppLists := [("CL1", ["AppX", "AppY"])]
    emailConfig := [], gitConfig := [], jfrogConfig := [] }

/-- A manifest whose LOB key is missing from `appLists` (exercises LOB-name
resolution for an absent key). -/
def demoNoName : Manifest :=
  { appLists := []
    targetAppLists := [("CL1", ["AppX"])]
    emailConfig := [], gitConfig := [], jfrogConfig := [] }

/-- A manifest on which `appLists` and `targetAppLists` have different key
sets. -/
def demoMismatch : Manifest :=
  { appLists := [("A", ["Alpha"])]
    targetAppLists := [("B", ["AppB"])]
    emailConfig := [], gitConfig := [], jfrogConfig := [] }

/-- A loaded state reached by loading the manifest, then (via the rendered
controls) selecting LOB `CL1` and target app `Zzz`. -/
def loadedState : UIState :=
  (runUI initState [UIEvent.loadSuccess demoManifest, UIEvent.selectLob "CL1",
    UIEvent.selectTargetApp "Zzz"]).1

/-- The state right after the manifest loads: all selection fields still
empty. -/
def emptyLoaded : UIState :=
  (stepUI initState (UIEvent.loadSuccess demoManifest)).1

lemma mem_insertStr (a x : String) (l : List String) :
    a ∈ insertStr x l ↔ a = x ∨ a ∈ l := by
  induction l with
  | nil => simp [insertStr]
  | cons y ys ih =>
    simp only [insertStr]
    split
    · simp
    · simp only [List.mem_cons, ih]
      tauto

lemma mem_strSort (a : String) (l : List String) :
    a ∈ strSort l ↔ a ∈ l := by
  induction l with
  | nil => simp [strSort]
  | cons x xs ih => simp [strSort, mem_insertStr, ih]

/-- C1: the claim says `validate` yields `Valid` iff the target app is an
exact, case-sensitive member of the LOB's configured list, and that no
substring match ever yields `Valid`.  The script instead tests membership
with jq `contains`, which on string arrays is substring containment: on
the Scenario-A manifest, target app `App` — not an element of
`{AppX, AppY}` but a substring of both — passes validation. -/
theorem validate_contains_substring_bug :
    validateStep demoManifest "CL1" "App" = ValidateOutcome.ok "Consumer Lending" ∧
    exactMember ["AppX", "AppY"] "App" = false ∧
    objGet demoManifest.targetAppLists "CL1" = some ["AppX", "AppY"] := by
  decide

/-- C2 counterexample: the claim says a dispatch payload is emitted only
after the Validator re-confirms on submission that the selected target app
belongs to the selected LOB.  In the trace below the user loads the
manifest, selects LOB `CL1`, leaves the target app at the placeholder `""`
and presses the trigger: the UI POSTs the pairing `(CL1, "")` although
`""` is not a member of that LOB's configured apps — no validation runs
before the POST. -/
theorem ui_dispatches_unvalidated_pairing :
    (runUI initState [UIEvent.loadSuccess demoManifest, UIEvent.selectLob "CL1",
        UIEvent.clickTrigger]).2 =
      [{ ref := "main"
         inputs := [("lob", "CL1"), ("target_app", ""), ("project_name", ""),
           ("release_type", ""), ("release_description", "")] }] ∧
    exactMember ["AppX", "AppY"] "" = false ∧
    objGet demoManifest.targetAppLists "CL1" = some ["AppX", "AppY"] := by
  decide

/-- C2 (amended): the UI consults no validator at submission: with the
manifest loaded and no dispatch in flight, pressing the trigger POSTs the
payload built from the current selection even when the generated
workflow's validate step classifies that pairing as failed; the pairing is
checked only after dispatch, by that step, which then terminates with a
non-zero status. -/
theorem ui_dispatch_without_revalidation (s : UIState) (m : Manifest)
    (hm : s.jsonData = some m) (hl : s.loading = false)
    (hv : isOkOutcome (validateStep m s.lob s.targetApp) = false) :
    (stepUI s UIEvent.clickTrigger).2 = [buildDispatch s] ∧
    validateExit (validateStep m s.lob s.targetApp) ≠ 0 := by
  constructor
  · simp [stepUI, hm, hl]
  · cases h : validateStep m s.lob s.targetApp with
    | ok name => rw [h] at hv; simp [isOkOutcome] at hv
    | invalidPair alts => simp [validateExit]
    | abort => simp [validateExit]

/-- C2 witness: the amended theorem applied to a concrete loaded state
whose pairing `(CL1, Zzz)` the validate step rejects. -/
theorem ui_dispatch_without_revalidation_witness :
    (stepUI loadedState UIEvent.clickTrigger).2 = [buildDispatch loadedState] ∧
    validateExit (validateStep demoManifest loadedState.lob loadedState.targetApp) ≠ 0 :=
  ui_dispatch_without_revalidation loadedState demoManifest rfl rfl (by decide)

/-- C3: the claim says a bad pairing always yields a structured `Invalid`
(never an exception) carrying exactly the LOB's alternatives — empty for
an unknown LOB key — and a non-zero exit.  For a known key and a
non-matching app the script indeed reports the configured alternatives and
exits 1; but for an unknown key the jq field access yields `null`, and
`null | contains(...)` is a jq runtime error, so under `bash -e` the step
aborts with jq's status 5 and reports no alternatives at all. -/
theorem validate_unknown_lob_aborts :
    validateStep demoManifest "Unknown" "AppX" = ValidateOutcome.abort ∧
    validateExit ValidateOutcome.abort = 5 ∧
    validateStep demoManifest "CL1" "Zzz" = ValidateOutcome.invalidPair ["AppX", "AppY"] ∧
    validateExit (ValidateOutcome.invalidPair ["AppX", "AppY"]) = 1 := by
  decide

/-- C4: the claim says the dispatch request's inputs are named exactly
`lob_key`, `target_app`, `project_name`, `release_type`,
`release_description`.  The UI builds the inputs object with the
JavaScript shorthand `{ lob, ... }`, so for every state the first input
field is named `lob`, not `lob_key` (the name the generated workflow
declares and reads); `ref` is the constant `main`. -/
theorem ui_dispatch_input_names (s : UIState) :
    (buildDispatch s).inputs.map Prod.fst =
      ["lob", "target_app", "project_name", "release_type", "release_description"] ∧
    ¬ ("lob_key" ∈ (buildDispatch s).inputs.map Prod.fst) ∧
    (buildDispatch s).ref = "main" := by
  refine ⟨rfl, ?_, rfl⟩
  simp [buildDispatch]

/-- C5 counterexample: the claim says every change of `selectedLob` —
including back to unset — resets `selectedTargetApp`.  In the trace below
the user selects LOB `CL1` and app `AppX`, then sets the LOB back to the
placeholder `""`: the effect's `!lob` guard returns early, and the stale
`AppX` survives. -/
theorem lob_unset_keeps_target_app :
    (runUI initState [UIEvent.loadSuccess demoManifest, UIEvent.selectLob "CL1",
        UIEvent.selectTargetApp "AppX", UIEvent.selectLob ""]).1.lob = "" ∧
    (runUI initState [UIEvent.loadSuccess demoManifest, UIEvent.selectLob "CL1",
        UIEvent.selectTargetApp "AppX", UIEvent.selectLob ""]).1.targetApp = "AppX" := by
  decide

/-- C5 (amended): with the manifest loaded, changing `selectedLob` to any
non-empty value resets `selectedTargetApp` to unset; changing it back to
the empty (unset) value takes the effect's early return and leaves
`selectedTargetApp` unchanged. -/
theorem select_lob_reset_behavior (s : UIState) (m : Manifest)
    (hm : s.jsonData = some m) :
    (∀ k : String, k ≠ "" → (stepUI s (UIEvent.selectLob k)).1.targetApp = "") ∧
    (stepUI s (UIEvent.selectLob "")).1.targetApp = s.targetApp := by
  constructor
  · intro k hk
    simp [stepUI, lobEffect, hm, hk]
  · simp [stepUI, lobEffect, hm]

/-- C5 witness: the amended theorem applied to a concrete loaded state. -/
theorem select_lob_reset_behavior_witness :
    (stepUI loadedState (UIEvent.selectLob "CL2")).1.targetApp = "" ∧
    (stepUI loadedState (UIEvent.selectLob "")).1.targetApp = loadedState.targetApp :=
  ⟨(select_lob_reset_behavior loadedState demoManifest rfl).1 "CL2" (by decide),
   (select_lob_reset_behavior loadedState demoManifest rfl).2⟩

/-- C6: the claim says that on `Valid` the resolved `lobName` is
`appLists[lobKey][0]` when present and the empty string otherwise.  The
auxiliary fields do degrade to `""` (they use jq's `// ""` fallback), and
a present key resolves to its first element; but the `LOB_NAME` extraction
has no fallback, so for a key absent from `appLists`, `jq -r` prints the
`null` value as the literal string `null`, not as the empty string. -/
theorem valid_missing_applists_name_null :
    validateStep demoNoName "CL1" "AppX" = ValidateOutcome.ok "null" ∧
    jqFirstRaw demoNoName.appLists "CL1" = "null" ∧
    extractConfig demoNoName "CL1" =
      { emailDL := "", gitRepo := "", gitUser := "", artifactoryUser := ""
        artifactoryUrl := "" } ∧
    validateStep demoManifest "CL1" "AppX" = ValidateOutcome.ok "Consumer Lending" := by
  decide

/-- C7 counterexample: the claim says `targetApps` is total — the
configured list for a present key, the empty set for an absent one, never
failing downstream.  Selecting an absent key stores JavaScript `undefined`
(not an empty array) in `targetApps`, and the dropdown render
`targetApps.map` then throws. -/
theorem target_apps_absent_key_undefined :
    (runUI initState [UIEvent.loadSuccess demoManifest,
        UIEvent.selectLob "Unknown"]).1.targetApps = none ∧
    (runUI initState [UIEvent.loadSuccess demoManifest,
        UIEvent.selectLob "Unknown"]).1.targetApps ≠ some [] ∧
    renderOk (runUI initState [UIEvent.loadSuccess demoManifest,
        UIEvent.selectLob "Unknown"]).1 = false := by
  decide

/-- C7 (amended): after selecting a non-empty LOB key with the manifest
loaded, `targetApps` holds exactly the raw lookup
`SCXML_TARGET_APP_LISTS[lob]` — the configured list for a present key,
`undefined` (no empty-set fallback) for an absent one — and the target-app
dropdown renders successfully exactly when that lookup hit. -/
theorem target_apps_lookup_no_fallback (s : UIState) (m : Manifest) (k : String)
    (hm : s.jsonData = some m) (hk : k ≠ "") :
    (stepUI s (UIEvent.selectLob k)).1.targetApps = objGet m.targetAppLists k ∧
    renderOk (stepUI s (UIEvent.selectLob k)).1 =
      (objGet m.targetAppLists k).isSome := by
  constructor
  · simp [stepUI, lobEffect, hm, hk]
  · simp [stepUI, lobEffect, renderOk, hm, hk]

/-- C7 witness: the amended theorem applied at an absent key. -/
theorem target_apps_lookup_no_fallback_witness :
    (stepUI loadedState (UIEvent.selectLob "Unknown")).1.targetApps =
      objGet demoManifest.targetAppLists "Unknown" ∧
    renderOk (stepUI loadedState (UIEvent.selectLob "Unknown")).1 =
      (objGet demoManifest.targetAppLists "Unknown").isSome :=
  target_apps_lookup_no_fallback loadedState demoManifest "Unknown" rfl (by decide)

/-- C8 counterexample: the claim says the CLI's LOB options are exactly
the keys of `targetAppLists`, the key set the Loader exposes.  The script
reads them from `SCXML_APP_LISTS` instead: on a manifest whose two
mappings have different keys, the CLI emits `A` while the Loader exposes
`B`. -/
theorem cli_lob_options_from_applists :
    cliLobOptions demoMismatch = ["A"] ∧
    uiLobKeys demoMismatch = ["B"] ∧
    ¬ ("A" ∈ uiLobKeys demoMismatch) := by
  decide

/-- C8 (amended): the LOB options emitted by the CLI are exactly the keys
of `appLists` (jq-sorted); they coincide, as a set, with the key set the
Loader exposes (the keys of `targetAppLists`) precisely under the spec's
SHOULD-invariant that the two mappings carry the same keys. -/
theorem cli_lob_options_characterization (m : Manifest) (k : String)
    (h : jqKeys m.appLists = jqKeys m.targetAppLists) :
    (k ∈ cliLobOptions m ↔ k ∈ m.appLists.map Prod.fst) ∧
    (k ∈ cliLobOptions m ↔ k ∈ uiLobKeys m) := by
  constructor
  · exact mem_strSort k (m.appLists.map Prod.fst)
  · unfold cliLobOptions
    rw [h]
    unfold jqKeys uiLobKeys
    exact mem_strSort k (m.targetAppLists.map Prod.fst)

/-- C8 witness: the amended theorem on the Scenario-A manifest, whose two
mappings share the key set `{CL1}`. -/
theorem cli_lob_options_characterization_witness :
    ("CL1" ∈ cliLobOptions demoManifest ↔
      "CL1" ∈ demoManifest.appLists.map Prod.fst) ∧
    ("CL1" ∈ cliLobOptions demoManifest ↔ "CL1" ∈ uiLobKeys demoManifest) :=
  cli_lob_options_characterization demoManifest "CL1" rfl

/-- C9: the target_app options emitted by the CLI are, as a set, exactly
the flattened union of the target apps of all LOBs, and they contain no
duplicates, whatever duplicates the manifest carries. -/
theorem cli_target_app_options_union_nodup (m : Manifest) (a : String) :
    (a ∈ cliTargetAppOptions m ↔ ∃ p ∈ m.targetAppLists, a ∈ p.2) ∧
    (cliTargetAppOptions m).Nodup := by
  constructor
  · unfold cliTargetAppOptions sortUniq
    rw [List.mem_dedup, mem_strSort, List.mem_flatten]
    constructor
    · rintro ⟨l, hl, hal⟩
      rcases List.mem_map.mp hl with ⟨p, hp, rfl⟩
      exact ⟨p, hp, hal⟩
    · rintro ⟨p, hp, hap⟩
      exact ⟨p.2, List.mem_map.mpr ⟨p, hp, rfl⟩, hap⟩
  · exact List.nodup_dedup _

/-- C10: pressing the trigger button with the form rendered POSTs the
dispatch built from the current state — whatever its fields hold,
including empty strings — and the only client-side gate is the button's
`disabled={loading}`: nothing is emitted while a dispatch is in flight,
and no emptiness or membership condition is checked otherwise. -/
theorem trigger_no_precondition (s : UIState) (m : Manifest)
    (hm : s.jsonData = some m) :
    (stepUI s UIEvent.clickTrigger).2 =
      (if s.loading then [] else [buildDispatch s]) := by
  simp only [stepUI, hm, Option.isNone_some, Bool.false_eq_true, if_false]
  by_cases h : s.loading <;> simp [h]

/-- C10 witness: the theorem at the freshly loaded state, whose selection
fields are all still empty: the empty values are POSTed as-is. -/
theorem trigger_no_precondition_witness :
    (stepUI emptyLoaded UIEvent.clickTrigger).2 =
      (if emptyLoaded.loading then [] else [buildDispatch emptyLoaded]) :=
  trigger_no_precondition emptyLoaded demoManifest rfl
